import Mathlib

/-!
Shallow embedding of the alkivi odoo client (`alkivi/odoo/client.py`).

Modelling conventions:
* Remote state is abstracted as a pure `Gateway` oracle; every remote call made
  by the client is recorded in a trace of `GCall` values, in call order.
* Python floats are idealized as rationals (`ℚ`); the `0.80` tolerance of the
  source is `4/5`.
* Python dicts are association lists with insert-or-update assignment
  (`aset`), preserving Python's update-in-place / append-new-key behaviour.
* Python exceptions are `Except PyErr` results; the distinct raise sites of
  the source are mapped to distinct `PyErr` constructors carrying the message.
* `logging` calls are modelled by their real call-time behaviour: ordinary
  calls, including stray-argument ones whose deferred formatting errors the
  logging module swallows internally, are pure events or ignored (only the
  warning-severity correction log and the skip/force-draft notes are
  recorded); the two calls that crash at call time in the source, the
  undefined `logging.important` attribute and the one-argument
  `logging.log`, raise `AttributeError` and `TypeError` respectively.
-/

/-- Values stored in the caller-supplied dictionaries: numbers, strings,
record ids, and the OpenERP Many2many command list held by
`invoice_line_tax_id` (a list of `(op, id, ids)` triples). -/
inductive PyVal where
  | vnum : ℚ → PyVal
  | vstr : String → PyVal
  | vnat : Nat → PyVal
  | vtax : List (Int × Int × List Nat) → PyVal
deriving DecidableEq

/-- Python dict modelled as an association list keyed by strings. -/
abbrev PyDict := List (String × PyVal)

/-- Association-list lookup (Python `d[k]` / `k in d`). -/
def alookup {κ β : Type} [DecidableEq κ] : List (κ × β) → κ → Option β
  | [], _ => none
  | (k, v) :: rest, key => if k = key then some v else alookup rest key

/-- Association-list assignment (Python `d[k] = v`): updates an existing
binding in place, otherwise appends the new binding. -/
def aset {κ β : Type} [DecidableEq κ] : List (κ × β) → κ → β → List (κ × β)
  | [], key, v => [(key, v)]
  | (k, w) :: rest, key, v =>
    if k = key then (k, v) :: rest else (k, w) :: aset rest key v

/-- Errors raised by the client; each constructor corresponds to a raise site
(or builtin exception) of the source. -/
inductive PyErr where
  | validation : String → PyErr
  | notFound : String → PyErr
  | ambiguous : String → PyErr
  | remoteInvariant : String → PyErr
  | keyError : String → PyErr
  | attributeError : String → PyErr
  | typeError : PyErr
  | valueError : PyErr
  | indexError : PyErr
deriving DecidableEq

/-- Digits of a decimal number as characters, most significant first. -/
def natDigits (n : Nat) : List Char :=
  if h : n < 10 then [Char.ofNat (48 + n)]
  else natDigits (n / 10) ++ [Char.ofNat (48 + n % 10)]
decreasing_by
  exact Nat.div_lt_self (Nat.lt_of_lt_of_le (by norm_num) (Nat.le_of_not_lt h)) (by norm_num)

/-- Value of a list of decimal digit characters (used by `parseFloat`). -/
def natOfDigits (l : List Char) : Nat :=
  l.foldl (fun a c => a * 10 + (c.toNat - 48)) 0

/-- Python `float(s)` on plain decimal literals: optional sign, integer part,
optional fractional part (at least one digit overall). Exotic accepted forms
(exponents, `inf`, `nan`, surrounding whitespace) are not modelled; the
client only ever receives plain decimal tax indices. -/
def parseFloat (s : String) : Option ℚ :=
  let cs := s.toList
  let sign : Bool :=
    match cs with
    | c :: _ => c = '-'
    | [] => false
  let cs2 :=
    match cs with
    | '-' :: rest => rest
    | '+' :: rest => rest
    | l => l
  let ip := cs2.takeWhile Char.isDigit
  let rest := cs2.dropWhile Char.isDigit
  let mag : Option ℚ :=
    match rest with
    | [] => if ip.isEmpty then none else some (mkRat (natOfDigits ip) 1)
    | '.' :: fr =>
      if fr.all Char.isDigit && !(ip.isEmpty && fr.isEmpty) then
        some (mkRat (natOfDigits ip * 10 ^ fr.length + natOfDigits fr) (10 ^ fr.length))
      else none
    | _ => none
  match mag with
  | none => none
  | some m => some (if sign then -m else m)

/-- Tax record as browsed from `account.tax`: id, `amount`, and the id of its
`tax_code_id` grouping. -/
structure TaxRec where
  id : Nat
  amount : ℚ
  taxCodeId : Nat
deriving DecidableEq

/-- Computed tax line of an invoice (`invoice.tax_line` element). -/
structure TaxLine where
  id : Nat
  taxCodeId : Nat
  amount : ℚ
deriving DecidableEq

/-- Invoice record as browsed from `account.invoice`. An unassigned or empty
(`falsy`) invoice number is modelled as `none`. -/
structure InvoiceRec where
  id : Nat
  taxLine : List TaxLine
  number : Option String
deriving DecidableEq

/-- Opaque handle to a browsed remote record (model name plus numeric id). -/
structure RecRef where
  model : String
  id : Nat
deriving DecidableEq

/-- Search criterion triples `(field, operator, value)`; the client uses
equality on strings, equality on numbers, and case-insensitive contains. -/
inductive Crit where
  | eqs : String → String → Crit
  | eqn : String → Nat → Crit
  | ilike : String → String → Crit
deriving DecidableEq

/-- Remote calls issued by the client, as recorded in traces. -/
inductive GCall where
  | csearch : String → List Crit → GCall
  | cbrowse : String → Nat → GCall
  | ccreate : String → PyDict → GCall
  | cexecute : String → String → GCall
  | cworkflow : String → String → Nat → GCall
  | cwrite : Nat → ℚ → GCall
deriving DecidableEq

/-- Modelled from the spec: `write_record` is called by `create_invoice`
(client.py lines 378 and 400) but is not defined in this repository's
source; spec section 6 lists it as a Gateway capability, `write_record(record)`,
persisting in-place mutations made to a browsed record. Its effect is
recorded as a `cwrite` trace event carrying the record id and the newly
assigned amount. -/
def write_record (tl : TaxLine) (q : ℚ) : GCall := GCall.cwrite tl.id q

/-- Recorded log events: the warning-severity log of a tax-line correction
above the 0.80 tolerance, and the notes emitted when the multi-line
integrity check is skipped. The routine severity intended for differences
at or below the tolerance is never emitted: the source's `logging.important`
is an undefined attribute of the stdlib module and raises instead. -/
inductive LogEv where
  | warnFix : Nat → LogEv
  | infoSkip : LogEv
  | warnForceDraft : LogEv
deriving DecidableEq

/-- Remote ERP gateway as a pure oracle: what each remote call would return. -/
structure Gateway where
  search : String → List Crit → List Nat
  browseTax : Nat → Option TaxRec
  browseInvoice : Nat → InvoiceRec
  getDefaultSupplierTax : List Nat
  create : String → PyDict → Nat
  resetTaxes : Nat → Bool

/-- Client-side mutable state: the two resolver caches. A cached `none` tax
is a valid outcome (a falsy browse result that was cached). -/
structure ClientState where
  taxes_cache : List (String × Option TaxRec)
  products_cache : List (String × RecRef)
deriving DecidableEq

/-- Result of `fetch_tax`: outcome, updated client state, call trace. -/
structure TaxFetch where
  res : Except PyErr (Option TaxRec)
  state : ClientState
  calls : List GCall

/-- Embedding of `Client.fetch_tax` (client.py lines 162-208): cache lookup,
`"default"` default-value lookup, zero short-circuit, otherwise search
`account.tax` by description `ACH-<index>` with the zero/one/many policy. -/
def fetch_tax (g : Gateway) (st : ClientState) (vat_index : String) : TaxFetch :=
  match alookup st.taxes_cache vat_index with
  | some cached => ⟨Except.ok cached, st, []⟩
  | none =>
    if vat_index = "default" then
      match g.getDefaultSupplierTax with
      | [] => ⟨Except.error PyErr.indexError, st, [GCall.cexecute "ir.values" "get_default"]⟩
      | tid :: _ =>
        let tax := g.browseTax tid
        ⟨Except.ok tax,
         { st with taxes_cache := aset st.taxes_cache vat_index tax },
         [GCall.cexecute "ir.values" "get_default", GCall.cbrowse "account.tax" tid]⟩
    else
      match parseFloat vat_index with
      | none => ⟨Except.error PyErr.valueError, st, []⟩
      | some q =>
        if q = 0 then ⟨Except.ok none, st, []⟩
        else
          let args := [Crit.eqs "description" ("ACH-" ++ vat_index)]
          match g.search "account.tax" args with
          | [] =>
            ⟨Except.error (PyErr.notFound ("tax " ++ vat_index ++ " is missing in account.tax")),
             st, [GCall.csearch "account.tax" args]⟩
          | [tid] =>
            let tax := g.browseTax tid
            ⟨Except.ok tax,
             { st with taxes_cache := aset st.taxes_cache vat_index tax },
             [GCall.csearch "account.tax" args, GCall.cbrowse "account.tax" tid]⟩
          | _ :: _ :: _ =>
            ⟨Except.error (PyErr.ambiguous ("More than one tax with description " ++ vat_index)),
             st, [GCall.csearch "account.tax" args]⟩

/-- Per-character replacement of `.` by `,`; equal to the source's
`','.join(re.split('\\.', description))`, which rejoins the dot-separated
pieces with commas. -/
def replaceDot : List Char → List Char
  | [] => []
  | c :: cs => (if c = '.' then ',' else c) :: replaceDot cs

/-- Round a rational to the nearest integer, ties to even: the rounding C's
`%.1f` formatting applies to the exactly represented scaled value. -/
def rheRound (x : ℚ) : ℤ :=
  let f := ⌊x⌋
  let r := x - f
  if r < 1/2 then f else if 1/2 < r then f + 1 else if 2 ∣ f then f else f + 1

/-- Python `'%2d' % n`: decimal rendering, left-padded with a space to a
minimum width of 2. -/
def pyFmtD2 (n : Int) : List Char :=
  let s := if n < 0 then '-' :: natDigits n.natAbs else natDigits n.natAbs
  if s.length < 2 then ' ' :: s else s

/-- Python `'%2.1f' % x`: one fractional digit (the rendering is always at
least 3 characters wide, so the width-2 minimum never pads). -/
def pyFmt21 (q : ℚ) : List Char :=
  let m := rheRound (10 * q)
  let a := m.natAbs
  let core := natDigits (a / 10) ++ '.' :: natDigits (a % 10)
  if m < 0 then '-' :: core else core

/-- Description text for a product (client.py lines 133-140): `'0'` when no
tax applies, otherwise `amount * 100` rendered as a width-2 padded integer
when whole and with one decimal place otherwise. -/
def productText (tax : Option TaxRec) : List Char :=
  match tax with
  | none => ['0']
  | some t =>
    let x := t.amount * 100
    if x.den = 1 then pyFmtD2 x.num else pyFmt21 x

/-- Search description built by `fetch_product` (client.py lines 142-143):
`'Produits et Services <text>'` with every dot replaced by a comma. -/
def productDescription (tax : Option TaxRec) : String :=
  ⟨replaceDot ("Produits et Services ".toList ++ productText tax)⟩

/-- Result of `fetch_product`: outcome, updated client state, call trace. -/
structure ProdFetch where
  res : Except PyErr RecRef
  state : ClientState
  calls : List GCall

/-- Embedding of `Client.fetch_product` (client.py lines 120-160): cache
lookup, tax resolution, description formatting, `ilike` search on
`name_template` with the zero/one/many policy, browse and cache. -/
def fetch_product (g : Gateway) (st : ClientState) (vat_index : String) : ProdFetch :=
  match alookup st.products_cache vat_index with
  | some p => ⟨Except.ok p, st, []⟩
  | none =>
    match fetch_tax g st vat_index with
    | ⟨Except.error e, st1, tr⟩ => ⟨Except.error e, st1, tr⟩
    | ⟨Except.ok tax, st1, tr⟩ =>
      let description := productDescription tax
      let args := [Crit.ilike "name_template" description]
      match g.search "product.product" args with
      | [] =>
        ⟨Except.error (PyErr.notFound (description ++ " is missing in product.product")),
         st1, tr ++ [GCall.csearch "product.product" args]⟩
      | [pid] =>
        let product : RecRef := ⟨"product.product", pid⟩
        ⟨Except.ok product,
         { st1 with products_cache := aset st1.products_cache vat_index product },
         tr ++ [GCall.csearch "product.product" args, GCall.cbrowse "product.product" pid]⟩
      | _ :: _ :: _ =>
        ⟨Except.error (PyErr.ambiguous ("More than one product " ++ description)),
         st1, tr ++ [GCall.csearch "product.product" args]⟩

/-- Embedding of `Client.fetch_account` (client.py lines 210-224): exact
search on the account code with the zero/one/many policy; not cached. -/
def fetch_account (g : Gateway) (code : String) : Except PyErr RecRef × List GCall :=
  let args := [Crit.eqs "code" code]
  match g.search "account.account" args with
  | [] =>
    (Except.error (PyErr.notFound ("Account " ++ code ++ " not found")),
     [GCall.csearch "account.account" args])
  | [aid] =>
    (Except.ok ⟨"account.account", aid⟩,
     [GCall.csearch "account.account" args, GCall.cbrowse "account.account" aid])
  | _ :: _ :: _ =>
    (Except.error (PyErr.ambiguous ("Found multiple accounts with code" ++ code)),
     [GCall.csearch "account.account" args])

/-- Criteria of the first `res.partner` search (client.py lines 232-238):
exact name match plus the requested role filters, in append order. -/
def partnerExactArgs (name : String) (customer supplier : Bool) : List Crit :=
  [Crit.eqs "name" name]
    ++ (if customer then [Crit.eqn "customer" 1] else [])
    ++ (if supplier then [Crit.eqn "supplier" 1] else [])

/-- Role filters appended by `fetch_partner` for the requested roles. -/
def roleFilters (customer supplier : Bool) : List Crit :=
  (if customer then [Crit.eqn "customer" 1] else [])
    ++ (if supplier then [Crit.eqn "supplier" 1] else [])

/-- Embedding of `Client.fetch_partner` (client.py lines 226-251): exact-name
search first; on zero results `search_args.pop(0)` removes only the exact
name condition and an `ilike` name condition is appended for the retry;
then the zero/one/many policy. -/
def fetch_partner (g : Gateway) (name : String) (customer supplier : Bool) :
    Except PyErr RecRef × List GCall :=
  let args0 := partnerExactArgs name customer supplier
  let ids0 := g.search "res.partner" args0
  let step :=
    if ids0.isEmpty then
      let args1 := args0.tail ++ [Crit.ilike "name" name]
      (g.search "res.partner" args1,
       [GCall.csearch "res.partner" args0, GCall.csearch "res.partner" args1])
    else (ids0, [GCall.csearch "res.partner" args0])
  match step with
  | (ids, tr) =>
    match ids with
    | [] => (Except.error (PyErr.notFound ("Supplier " ++ name ++ " not found")), tr)
    | [cid] => (Except.ok ⟨"res.partner", cid⟩, tr ++ [GCall.cbrowse "res.partner" cid])
    | _ :: _ :: _ =>
      (Except.error (PyErr.ambiguous ("Found multiple customers with name " ++ name)), tr)

/-- Embedding of `Client.fetch_customer` (client.py lines 253-258). -/
def fetch_customer (g : Gateway) (name : String) : Except PyErr RecRef × List GCall :=
  fetch_partner g name true false

/-- Embedding of `Client.fetch_supplier` (client.py lines 260-265). -/
def fetch_supplier (g : Gateway) (name : String) : Except PyErr RecRef × List GCall :=
  fetch_partner g name false true

/-- Loop of client.py lines 321-350: walk the line dicts accumulating the
`tax_code_id → vat_amount` map (`vat_data_to_fix`, last line wins on a
duplicate tax code). `ok none` is `should_fix_vat = False` (break); a line
holding `vat_amount` but no `invoice_line_tax_id` key raises `KeyError`; a
non-list `invoice_line_tax_id` value makes `len()` raise `TypeError`. -/
def collectVatData (g : Gateway) :
    List PyDict → List (Nat × PyVal) → Except PyErr (Option (List (Nat × PyVal))) × List GCall
  | [], acc => (Except.ok (some acc), [])
  | d :: rest, acc =>
    match alookup d "vat_amount" with
    | none => (Except.ok none, [])
    | some vamt =>
      match alookup d "invoice_line_tax_id" with
      | none => (Except.error (PyErr.keyError "invoice_line_tax_id"), [])
      | some (PyVal.vtax tuples) =>
        match tuples with
        | [(_, _, [tax_id])] =>
          match g.browseTax tax_id with
          | none => (Except.ok none, [GCall.cbrowse "account.tax" tax_id])
          | some tax =>
            let r := collectVatData g rest (aset acc tax.taxCodeId vamt)
            (r.1, GCall.cbrowse "account.tax" tax_id :: r.2)
        | [_] => (Except.ok none, [])
        | _ => (Except.ok none, [])
      | some _ => (Except.error PyErr.typeError, [])

/-- Loop of client.py lines 354-362: `True` when some computed tax line's
tax-code id is absent from the expected-amount map (`all_is_correct` becomes
`False`). -/
def unknownTaxCode (m : List (Nat × PyVal)) : List TaxLine → Bool
  | [] => false
  | tl :: rest => if (alookup m tl.taxCodeId).isNone then true else unknownTaxCode m rest

/-- Correction of the single computed tax line (client.py lines 388-401).
When the amount differs from the expectation: above the 0.80 tolerance the
source logs a warning, overwrites the amount and persists it with one
`write_record` call, after which `logging.log('tax_line updated')` — missing
its required level argument — raises `TypeError`; at or below the tolerance
the source calls the undefined `logging.important` and raises
`AttributeError` before the assignment, so nothing is corrected or
written. -/
def fixSingleLine (tl : TaxLine) (t : ℚ) : Except PyErr Unit × List GCall × List LogEv :=
  if PyVal.vnum tl.amount ≠ PyVal.vnum t then
    if |tl.amount - t| > 4/5 then
      (Except.error PyErr.typeError, [write_record tl t], [LogEv.warnFix tl.id])
    else
      (Except.error (PyErr.attributeError "important"), [], [])
  else (Except.ok (), [], [])

/-- Loop of client.py lines 364-378: correct each differing tax line against
the expected-amount map. A tax code missing from the map would raise
`KeyError` (unreachable after the `all_is_correct` check); a non-numeric
expectation raises `TypeError` at the `abs` subtraction; above the 0.80
tolerance the line is corrected (warning log, one `write_record` call) and
the loop continues; at or below it the undefined `logging.important` raises
`AttributeError` before the write, stopping the loop with the earlier
corrections already persisted. -/
def fixTaxLines (m : List (Nat × PyVal)) :
    List TaxLine → Except PyErr Unit × List GCall × List LogEv
  | [] => (Except.ok (), [], [])
  | tl :: rest =>
    match alookup m tl.taxCodeId with
    | none => (Except.error (PyErr.keyError "tax_code_id"), [], [])
    | some v =>
      if PyVal.vnum tl.amount = v then fixTaxLines m rest
      else
        match v with
        | PyVal.vnum q =>
          if |tl.amount - q| > 4/5 then
            let r := fixTaxLines m rest
            (r.1, write_record tl q :: r.2.1, LogEv.warnFix tl.id :: r.2.2)
          else
            (Except.error (PyErr.attributeError "important"), [], [])
        | _ => (Except.error PyErr.typeError, [], [])

/-- Reconciliation step of `create_invoice` (client.py lines 304-401), run
after tax computation: skipped for a falsy `tax_amount`; zero tax lines is
fatal; exactly one line follows the single-line correction; several lines
follow the `should_fix_vat` / `all_is_correct` integrity-checked path, and
when the integrity check is skipped a non-draft requested state is forced
back to `draft`. Returns the possibly forced state, the extra remote calls
and the log events. -/
def reconcile (g : Gateway) (invoice_id : Nat) (linesOut : List PyDict) (state : String)
    (tax_amount : Option ℚ) : Except PyErr String × List GCall × List LogEv :=
  match tax_amount with
  | none => (Except.ok state, [], [])
  | some t =>
    if t = 0 then (Except.ok state, [], [])
    else
      let invoice := g.browseInvoice invoice_id
      let bc := [GCall.cbrowse "account.invoice" invoice_id]
      match invoice.taxLine with
      | [] => (Except.error (PyErr.remoteInvariant "No tax yet, we should have"), bc, [])
      | [tl] =>
        let r := fixSingleLine tl t
        match r.1 with
        | Except.error e => (Except.error e, bc ++ r.2.1, r.2.2)
        | Except.ok _ => (Except.ok state, bc ++ r.2.1, r.2.2)
      | _ :: _ :: _ =>
        match collectVatData g linesOut [] with
        | (Except.error e, tr) => (Except.error e, bc ++ tr, [])
        | (Except.ok none, tr) =>
          if state ≠ "draft" then
            (Except.ok "draft", bc ++ tr, [LogEv.infoSkip, LogEv.warnForceDraft])
          else (Except.ok state, bc ++ tr, [LogEv.infoSkip])
        | (Except.ok (some m), tr) =>
          if unknownTaxCode m invoice.taxLine then
            (Except.ok state, bc ++ tr, [])
          else
            match fixTaxLines m invoice.taxLine with
            | (Except.error e, wc, logs) => (Except.error e, bc ++ tr ++ wc, logs)
            | (Except.ok _, wc, logs) => (Except.ok state, bc ++ tr ++ wc, logs)

/-- Attachment step of `create_invoice` (client.py lines 407-417), reached
with a truthy `attachment_data`: re-browse the invoice, inject `res_id` and
(when the invoice has a number) `res_name`, create the attachment; the debug
logging then reads `attachment_data['name']`, raising `KeyError` when that
key is absent. -/
def attachStep (g : Gateway) (invoice_id : Nat) :
    Option PyDict → Except PyErr Unit × List GCall
  | none => (Except.ok (), [])
  | some ad =>
    if ad.isEmpty then (Except.ok (), [])
    else
      let invoice := g.browseInvoice invoice_id
      let ad1 := aset ad "res_id" (PyVal.vnat invoice.id)
      let ad2 :=
        match invoice.number with
        | some n => aset ad1 "res_name" (PyVal.vstr n)
        | none => ad1
      let atCalls := [GCall.cbrowse "account.invoice" invoice_id,
                      GCall.ccreate "ir.attachment" ad2]
      match alookup ad2 "name" with
      | none => (Except.error (PyErr.keyError "name"), atCalls)
      | some _ => (Except.ok (), atCalls)

/-- Outcome of `create_invoice`: the returned id or raised error, the line
dicts as mutated in place, the remote calls and the recorded log events. -/
structure InvResult where
  result : Except PyErr Nat
  linesOut : List PyDict
  calls : List GCall
  logs : List LogEv

/-- Embedding of `Client.create_invoice` (client.py lines 267-419):
precondition checks, header creation, in-place `invoice_id` injection and
line creation, tax recomputation, reconciliation, optional `invoice_open`
workflow, optional attachment (whose `res_name` is set only when the invoice
has a number, and whose logging reads `attachment_data['name']`, raising
`KeyError` when absent). -/
def create_invoice (g : Gateway) (invoice_data : PyDict) (lines_data : List PyDict)
    (attachment_data : Option PyDict) (state : String) (tax_amount : Option ℚ) : InvResult :=
  if invoice_data.isEmpty then
    ⟨Except.error (PyErr.validation "Missing invoice_data"), lines_data, [], []⟩
  else if lines_data.isEmpty then
    ⟨Except.error (PyErr.validation "Missing lines_data"), lines_data, [], []⟩
  else if state ≠ "draft" ∧ state ≠ "open" then
    ⟨Except.error (PyErr.validation ("State " ++ state ++ " is not valid")), lines_data, [], []⟩
  else
    let invoice_id := g.create "account.invoice" invoice_data
    let linesOut := lines_data.map (fun d => aset d "invoice_id" (PyVal.vnat invoice_id))
    let calls0 := GCall.ccreate "account.invoice" invoice_data
      :: linesOut.map (fun d => GCall.ccreate "account.invoice.line" d)
      ++ [GCall.cexecute "account.invoice" "button_reset_taxes"]
    if g.resetTaxes invoice_id = false then
      ⟨Except.error (PyErr.remoteInvariant "Unable to compute taxes, WTF"), linesOut, calls0, []⟩
    else
      match reconcile g invoice_id linesOut state tax_amount with
      | (Except.error e, rc, logs) => ⟨Except.error e, linesOut, calls0 ++ rc, logs⟩
      | (Except.ok stateAfter, rc, logs) =>
        let wfCalls :=
          if stateAfter = "open" then
            [GCall.cworkflow "account.invoice" "invoice_open" invoice_id]
          else []
        match attachStep g invoice_id attachment_data with
        | (Except.error e, ac) =>
          ⟨Except.error e, linesOut, calls0 ++ rc ++ wfCalls ++ ac, logs⟩
        | (Except.ok _, ac) =>
          ⟨Except.ok invoice_id, linesOut, calls0 ++ rc ++ wfCalls ++ ac, logs⟩

/-- Write-record calls of a trace. -/
def writeCalls (tr : List GCall) : List GCall :=
  tr.filter fun c => match c with
    | GCall.cwrite _ _ => true
    | _ => false

/-- Search calls of a trace. -/
def searchCalls (tr : List GCall) : List GCall :=
  tr.filter fun c => match c with
    | GCall.csearch _ _ => true
    | _ => false

/-- Workflow-transition calls of a trace. -/
def workflowCalls (tr : List GCall) : List GCall :=
  tr.filter fun c => match c with
    | GCall.cworkflow _ _ _ => true
    | _ => false

/-- Description format exactly as claim C9 words it: `'Produits et Services
<p>'` with `p = amount * 100` rendered as a bare integer percentage when
whole and with one decimal place (comma for the decimal point) otherwise,
and `'Produits et Services 0'` when no tax applies. Stated for comparison
against the source-derived `productDescription`. -/
def claimDescription (tax : Option TaxRec) : String :=
  match tax with
  | none => ⟨"Produits et Services 0".toList⟩
  | some t =>
    let x := t.amount * 100
    if x.den = 1 then
      ⟨"Produits et Services ".toList ++ natDigits x.num.natAbs⟩
    else
      let m := (rheRound (10 * x)).natAbs
      ⟨"Produits et Services ".toList ++ natDigits (m / 10) ++ ',' :: natDigits (m % 10)⟩

/-- Description format as amended by the C9 counterexample: identical to
`claimDescription` except that a whole percentage is space-padded to a
minimum width of 2 characters, as Python's `'%2d'` renders it. -/
def amendedDescription (tax : Option TaxRec) : String :=
  match tax with
  | none => ⟨"Produits et Services 0".toList⟩
  | some t =>
    let x := t.amount * 100
    if x.den = 1 then
      let s := natDigits x.num.natAbs
      ⟨"Produits et Services ".toList ++ (if s.length < 2 then ' ' :: s else s)⟩
    else
      let m := (rheRound (10 * x)).natAbs
      ⟨"Produits et Services ".toList ++ natDigits (m / 10) ++ ',' :: natDigits (m % 10)⟩

/-- Line dicts claim C4 ranges over: whenever `vat_amount` is present, the
`invoice_line_tax_id` key is present and holds a Many2many command list
(otherwise the source raises `KeyError`, outside the claim's scenario). -/
def wfVatLine (d : PyDict) : Prop :=
  (alookup d "vat_amount").isSome →
    ∃ l, alookup d "invoice_line_tax_id" = some (PyVal.vtax l)

/-- Line spec making the multi-line integrity check bail out, as claim C4
words it: no `vat_amount` field, or an `invoice_line_tax_id` that does not
reference exactly one tax. -/
def badVatLine (d : PyDict) : Prop :=
  alookup d "vat_amount" = none ∨
    ∃ l, alookup d "invoice_line_tax_id" = some (PyVal.vtax l) ∧
      ∀ a b tid, l ≠ [(a, b, [tid])]

/-- Empty client state (both caches empty, as after construction). -/
def st0 : ClientState := ⟨[], []⟩

/-- Inert gateway used where the run under scrutiny never consults the
omitted capabilities. -/
def gw0 : Gateway :=
  ⟨fun _ _ => [], fun _ => none, fun _ => ⟨0, [], none⟩, [], fun _ _ => 0, fun _ => true⟩

/-- Header dict used by concrete invoice runs. -/
def invD : PyDict := [("partner_id", PyVal.vnat 1)]

/-- Plain line dict used by concrete invoice runs. -/
def lineD : PyDict := [("name", PyVal.vstr "line")]

/-- Gateway for the single-tax-line correction run: the recomputed invoice
carries one tax line of amount 100.5 (id 5, tax code 9). -/
def g1 : Gateway :=
  { gw0 with
    create := fun _ _ => 11
    browseInvoice := fun _ => ⟨11, [⟨5, 9, mkRat 201 2⟩], none⟩ }

/-- Gateway for the partner-retry run: the exact-name search for `"Bob"`
with the customer filter finds nothing, any other search finds partner 7. -/
def g2 : Gateway :=
  { gw0 with
    search := fun _ args => if args = partnerExactArgs "Bob" true false then [] else [7] }

/-- Gateway for the multi-tax-line runs: invoice 3 recomputes to two tax
lines with tax codes 10 and 99; tax 7 browses to tax code 10. -/
def g4 : Gateway :=
  { gw0 with
    create := fun _ _ => 3
    browseTax := fun i => if i = 7 then some ⟨7, mkRat 1 5, 10⟩ else none
    browseInvoice := fun _ => ⟨3, [⟨1, 10, mkRat 2 1⟩, ⟨2, 99, mkRat 7 1⟩], none⟩ }

/-- Line dict carrying a `vat_amount` expectation for tax 7. -/
def lineVat : PyDict :=
  [("vat_amount", PyVal.vnum (mkRat 2 1)),
   ("invoice_line_tax_id", PyVal.vtax [(6, 0, [7])])]

/-- Line dict carrying a `vat_amount` but no `invoice_line_tax_id` key. -/
def lineVatNoTax : PyDict := [("vat_amount", PyVal.vnum (mkRat 5 1))]

/-- Gateway for the default-tax resolution run: the remote default-value
lookup yields tax 3, which browses to a record. -/
def g7 : Gateway :=
  { gw0 with
    getDefaultSupplierTax := [3]
    browseTax := fun i => if i = 3 then some ⟨3, mkRat 1 5, 30⟩ else none }

/-- Gateway for the single-match tax resolution run: every search finds
exactly tax 6. -/
def g7a : Gateway :=
  { gw0 with
    search := fun _ _ => [6]
    browseTax := fun i => if i = 6 then some ⟨6, mkRat 1 5, 60⟩ else none }

/-- Gateway whose every search is ambiguous (two matches). -/
def g8 : Gateway := { gw0 with search := fun _ _ => [1, 2] }

/-- Client state holding a cached tax record under index `"x"`. -/
def st8 : ClientState := ⟨[("x", some ⟨4, mkRat 1 10, 44⟩)], []⟩

/-- Client state holding a cached 5% tax record under index `"5"`. -/
def st9 : ClientState := ⟨[("5", some ⟨4, mkRat 1 20, 7⟩)], []⟩

theorem alookup_aset_self {κ β : Type} [DecidableEq κ] (l : List (κ × β)) (k : κ) (v : β) :
    alookup (aset l k v) k = some v := by
  induction l with
  | nil => simp [aset, alookup]
  | cons p rest ih =>
    obtain ⟨a, b⟩ := p
    by_cases h : a = k
    · simp [aset, alookup, h]
    · simp [aset, alookup, h, ih]

theorem writeCalls_append (l1 l2 : List GCall) :
    writeCalls (l1 ++ l2) = writeCalls l1 ++ writeCalls l2 :=
  List.filter_append l1 l2

theorem workflowCalls_append (l1 l2 : List GCall) :
    workflowCalls (l1 ++ l2) = workflowCalls l1 ++ workflowCalls l2 :=
  List.filter_append l1 l2

theorem searchCalls_append (l1 l2 : List GCall) :
    searchCalls (l1 ++ l2) = searchCalls l1 ++ searchCalls l2 :=
  List.filter_append l1 l2

theorem writeCalls_creates (m : String) (l : List PyDict) :
    writeCalls (l.map fun d => GCall.ccreate m d) = [] := by
  induction l with
  | nil => rfl
  | cons d rest ih => simp [writeCalls, List.filter, ih]

theorem workflowCalls_creates (m : String) (l : List PyDict) :
    workflowCalls (l.map fun d => GCall.ccreate m d) = [] := by
  induction l with
  | nil => rfl
  | cons d rest ih => simp [workflowCalls, List.filter, ih]

theorem collectVatData_calls_browse (g : Gateway) :
    ∀ (ds : List PyDict) (acc : List (Nat × PyVal)),
      ∀ c ∈ (collectVatData g ds acc).2, ∃ i, c = GCall.cbrowse "account.tax" i := by
  intro ds
  induction ds with
  | nil => intro acc c hc; simp [collectVatData] at hc
  | cons d rest ih =>
    intro acc c hc
    rw [collectVatData] at hc
    split at hc
    · simp at hc
    · split at hc
      · simp at hc
      · split at hc
        · split at hc
          · simp at hc
            exact ⟨_, hc⟩
          · simp at hc
            rcases hc with rfl | hc
            · exact ⟨_, rfl⟩
            · exact ih _ c hc
        · simp at hc
        · simp at hc
      · simp at hc

theorem writeCalls_collectVatData (g : Gateway) (ds : List PyDict) (acc : List (Nat × PyVal)) :
    writeCalls (collectVatData g ds acc).2 = [] := by
  rw [writeCalls, List.filter_eq_nil_iff]
  intro c hc
  obtain ⟨i, rfl⟩ := collectVatData_calls_browse g ds acc c hc
  simp

theorem workflowCalls_collectVatData (g : Gateway) (ds : List PyDict) (acc : List (Nat × PyVal)) :
    workflowCalls (collectVatData g ds acc).2 = [] := by
  rw [workflowCalls, List.filter_eq_nil_iff]
  intro c hc
  obtain ⟨i, rfl⟩ := collectVatData_calls_browse g ds acc c hc
  simp

/-- Claim C5: a call to `create_invoice` with an empty invoice mapping, an
empty line sequence, or a requested state outside `{draft, open}` fails with
a validation error before any remote call: the trace is empty (so no header,
line or attachment record is created) and the caller's line dicts are left
untouched. -/
theorem C5_preconditions_block_early (g : Gateway) (inv : PyDict) (lines : List PyDict)
    (att : Option PyDict) (state : String) (t : Option ℚ)
    (h : inv = [] ∨ lines = [] ∨ (state ≠ "draft" ∧ state ≠ "open")) :
    (∃ msg, (create_invoice g inv lines att state t).result
        = Except.error (PyErr.validation msg))
    ∧ (create_invoice g inv lines att state t).calls = []
    ∧ (create_invoice g inv lines att state t).linesOut = lines := by
  rcases h with rfl | rfl | ⟨h1, h2⟩
  · exact ⟨⟨"Missing invoice_data", rfl⟩, rfl, rfl⟩
  · rw [create_invoice]
    by_cases hinv : inv.isEmpty
    · simp [hinv]
    · simp [hinv]
  · rw [create_invoice]
    by_cases hinv : inv.isEmpty
    · simp [hinv]
    · by_cases hlines : lines.isEmpty
      · simp [hinv, hlines]
      · simp [hinv, hlines, h1, h2]

theorem C5_witness :
    (∃ msg, (create_invoice gw0 [] [lineD] none "draft" none).result
        = Except.error (PyErr.validation msg))
    ∧ (create_invoice gw0 [] [lineD] none "draft" none).calls = []
    ∧ (create_invoice gw0 [] [lineD] none "draft" none).linesOut = [lineD] :=
  C5_preconditions_block_early gw0 [] [lineD] none "draft" none (Or.inl rfl)

/-- Claim C6: a `tax_index` that parses as the number 0 (for instance `"0"`
or `"0.0"`) and is not already cached makes `fetch_tax` return the
absent-tax value with no remote call at all and with the client state (in
particular the tax cache) unchanged. -/
theorem C6_zero_short_circuit (g : Gateway) (st : ClientState) (idx : String)
    (hmiss : alookup st.taxes_cache idx = none)
    (hzero : parseFloat idx = some 0) :
    fetch_tax g st idx = ⟨Except.ok none, st, []⟩ := by
  have hne : idx ≠ "default" := by
    intro h
    rw [h] at hzero
    exact absurd hzero (by decide)
  rw [fetch_tax, hmiss]
  simp only [hne, if_false, hzero, reduceIte]

theorem C6_witness :
    fetch_tax gw0 st0 "0" = ⟨Except.ok none, st0, []⟩
    ∧ fetch_tax gw0 st0 "0.0" = ⟨Except.ok none, st0, []⟩ :=
  ⟨C6_zero_short_circuit gw0 st0 "0" rfl (by decide),
   C6_zero_short_circuit gw0 st0 "0.0" rfl (by decide)⟩


theorem take_after_header (hd : GCall) (mid rest : List GCall) (n : Nat)
    (hn : mid.length = n) : (hd :: (mid ++ rest)).take (1 + n) = hd :: mid := by
  subst hn
  rw [Nat.add_comm, List.take_succ_cons, List.take_left]

/-- Claim C10: past the precondition checks, `create_invoice` writes the new
invoice id under `'invoice_id'` into every caller-supplied line dict before
creating that line: the mutated dicts are exactly the originals with
`invoice_id` injected, and the trace starts with the header create followed
by one line create per dict, each carrying the already-mutated dict — and
this holds whether the call later succeeds or raises. -/
theorem C10_lines_mutated_in_place (g : Gateway) (inv : PyDict) (lines : List PyDict)
    (att : Option PyDict) (state : String) (t : Option ℚ) (iid : Nat)
    (h1 : inv ≠ []) (h2 : lines ≠ []) (h3 : state = "draft" ∨ state = "open")
    (hiid : g.create "account.invoice" inv = iid) :
    (create_invoice g inv lines att state t).linesOut
        = lines.map (fun d => aset d "invoice_id" (PyVal.vnat iid))
    ∧ (create_invoice g inv lines att state t).calls.take (1 + lines.length)
        = GCall.ccreate "account.invoice" inv
          :: lines.map (fun d => GCall.ccreate "account.invoice.line"
              (aset d "invoice_id" (PyVal.vnat iid))) := by
  have hinv : inv.isEmpty = false := by
    cases inv with
    | nil => exact absurd rfl h1
    | cons a as => rfl
  have hlines : lines.isEmpty = false := by
    cases lines with
    | nil => exact absurd rfl h2
    | cons a as => rfl
  have hstate : ¬(state ≠ "draft" ∧ state ≠ "open") := by
    rcases h3 with rfl | rfl <;> simp
  have htake : ∀ (tail : List GCall),
      (GCall.ccreate "account.invoice" inv
        :: ((lines.map fun d => aset d "invoice_id" (PyVal.vnat iid)).map
            (fun d => GCall.ccreate "account.invoice.line" d) ++ tail)).take
          (1 + lines.length)
      = GCall.ccreate "account.invoice" inv
        :: lines.map (fun d => GCall.ccreate "account.invoice.line"
            (aset d "invoice_id" (PyVal.vnat iid))) := by
    intro tail
    have h := take_after_header (GCall.ccreate "account.invoice" inv)
      ((lines.map fun d => aset d "invoice_id" (PyVal.vnat iid)).map
        (fun d => GCall.ccreate "account.invoice.line" d))
      tail lines.length (by simp)
    simpa [List.map_map, Function.comp] using h
  rw [create_invoice, hinv, hlines]
  simp only [Bool.false_eq_true, if_false, hstate, hiid]
  by_cases hr : g.resetTaxes iid = false
  · simp only [hr, if_true, reduceIte]
    exact ⟨by trivial, htake _⟩
  · simp only [hr, if_false, reduceIte]
    rcases hrec : reconcile g iid (lines.map fun d => aset d "invoice_id" (PyVal.vnat iid))
        state t with ⟨res, rc, logs⟩
    cases res with
    | error e =>
      simp only [List.cons_append, List.append_assoc]
      exact ⟨by trivial, htake _⟩
    | ok stateAfter =>
      rcases hat : attachStep g iid att with ⟨ares, ac⟩
      cases ares with
      | error e =>
        simp only [List.cons_append, List.append_assoc]
        exact ⟨by trivial, htake _⟩
      | ok u =>
        simp only [List.cons_append, List.append_assoc]
        exact ⟨by trivial, htake _⟩

theorem C10_witness :
    (create_invoice g1 invD [lineD] none "draft" none).linesOut
        = [lineD].map (fun d => aset d "invoice_id" (PyVal.vnat 11))
    ∧ (create_invoice g1 invD [lineD] none "draft" none).calls.take (1 + [lineD].length)
        = GCall.ccreate "account.invoice" invD
          :: [lineD].map (fun d => GCall.ccreate "account.invoice.line"
              (aset d "invoice_id" (PyVal.vnat 11))) :=
  C10_lines_mutated_in_place g1 invD [lineD] none "draft" none 11
    (by decide) (by decide) (Or.inl rfl) rfl

/-- Claim C2 fails as stated: for the partner resolution of `"Bob"` with the
customer role, the exact-name search misses and the retry search still
carries the `('customer', '=', 1)` role filter — the criteria are not the
name-only partial match the claim describes. -/
theorem C2_cex_role_not_dropped :
    (fetch_partner g2 "Bob" true false).2
      = [GCall.csearch "res.partner" [Crit.eqs "name" "Bob", Crit.eqn "customer" 1],
         GCall.csearch "res.partner" [Crit.eqn "customer" 1, Crit.ilike "name" "Bob"],
         GCall.cbrowse "res.partner" 7]
    ∧ [Crit.eqn "customer" 1, Crit.ilike "name" "Bob"] ≠ [Crit.ilike "name" "Bob"] :=
  ⟨by decide, by decide⟩

/-- Claim C2 (amended): when the exact-name partner search returns zero ids,
the retry drops only the exact-name condition: it searches with the retained
customer/supplier role filters plus a partial case-insensitive (`ilike`)
match on the name appended. -/
theorem C2_amended_retry_keeps_role (g : Gateway) (name : String) (customer supplier : Bool)
    (hempty : g.search "res.partner" (partnerExactArgs name customer supplier) = []) :
    (fetch_partner g name customer supplier).2.take 2
      = [GCall.csearch "res.partner" (partnerExactArgs name customer supplier),
         GCall.csearch "res.partner"
           (roleFilters customer supplier ++ [Crit.ilike "name" name])] := by
  have htail : (partnerExactArgs name customer supplier).tail
      = roleFilters customer supplier := rfl
  rw [fetch_partner]
  simp only [hempty, List.isEmpty_nil, if_true, htail, reduceIte]
  rcases hres : g.search "res.partner"
      (roleFilters customer supplier ++ [Crit.ilike "name" name]) with _ | ⟨a, _ | ⟨b, rest⟩⟩
  · rfl
  · rfl
  · rfl

theorem C2_witness :
    (fetch_partner g2 "Bob" true false).2.take 2
      = [GCall.csearch "res.partner" (partnerExactArgs "Bob" true false),
         GCall.csearch "res.partner" (roleFilters true false ++ [Crit.ilike "name" "Bob"])] :=
  C2_amended_retry_keeps_role g2 "Bob" true false (by decide)

/-- Claim C7 fails as stated: the valid index `"default"` resolves
successfully (and is cached), yet two sequential `fetch_tax` calls issue
zero remote searches in total, not exactly one — the first call resolves
through the remote default-value lookup, not through a search. -/
theorem C7_cex_default_no_search :
    (fetch_tax g7 st0 "default").res = Except.ok (some ⟨3, mkRat 1 5, 30⟩)
    ∧ (fetch_tax g7 (fetch_tax g7 st0 "default").state "default").res
        = Except.ok (some ⟨3, mkRat 1 5, 30⟩)
    ∧ (searchCalls ((fetch_tax g7 st0 "default").calls
        ++ (fetch_tax g7 (fetch_tax g7 st0 "default").state "default").calls)).length ≠ 1 :=
  ⟨rfl, rfl, by decide⟩

/-- Claim C7 (amended): for a tax index resolved through the catalog search
(neither `"default"` nor parsing as 0) whose search returns exactly one id,
two sequential `fetch_tax` calls issue exactly one remote search in total:
the first call searches once and caches the browsed reference, the second
call is served entirely from the cache with no remote calls, and both
return equal references. -/
theorem C7_amended_cache_idempotent (g : Gateway) (st : ClientState) (idx : String)
    (q : ℚ) (tid : Nat)
    (hmiss : alookup st.taxes_cache idx = none)
    (hdef : idx ≠ "default")
    (hq : parseFloat idx = some q) (hq0 : q ≠ 0)
    (hsearch : g.search "account.tax" [Crit.eqs "description" ("ACH-" ++ idx)] = [tid]) :
    (fetch_tax g st idx).res = Except.ok (g.browseTax tid)
    ∧ searchCalls (fetch_tax g st idx).calls
        = [GCall.csearch "account.tax" [Crit.eqs "description" ("ACH-" ++ idx)]]
    ∧ fetch_tax g (fetch_tax g st idx).state idx
        = ⟨Except.ok (g.browseTax tid), (fetch_tax g st idx).state, []⟩ := by
  have h1 : fetch_tax g st idx = ⟨Except.ok (g.browseTax tid),
      { st with taxes_cache := aset st.taxes_cache idx (g.browseTax tid) },
      [GCall.csearch "account.tax" [Crit.eqs "description" ("ACH-" ++ idx)],
       GCall.cbrowse "account.tax" tid]⟩ := by
    rw [fetch_tax, hmiss]
    rw [if_neg hdef, hq]
    simp only [hq0, reduceIte, hsearch]
  rw [h1]
  refine ⟨rfl, rfl, ?_⟩
  rw [fetch_tax]
  simp [alookup_aset_self]

theorem C7_witness :
    (fetch_tax g7a st0 "20").res = Except.ok (g7a.browseTax 6)
    ∧ searchCalls (fetch_tax g7a st0 "20").calls
        = [GCall.csearch "account.tax" [Crit.eqs "description" ("ACH-" ++ "20")]]
    ∧ fetch_tax g7a (fetch_tax g7a st0 "20").state "20"
        = ⟨Except.ok (g7a.browseTax 6), (fetch_tax g7a st0 "20").state, []⟩ :=
  C7_amended_cache_idempotent g7a st0 "20" (mkRat 20 1) 6 rfl (by decide) (by decide)
    (by decide) rfl

theorem writeCalls_nil : writeCalls [] = [] := rfl

theorem writeCalls_cons_create (m : String) (d : PyDict) (l : List GCall) :
    writeCalls (GCall.ccreate m d :: l) = writeCalls l := rfl

theorem writeCalls_cons_browse (m : String) (i : Nat) (l : List GCall) :
    writeCalls (GCall.cbrowse m i :: l) = writeCalls l := rfl

theorem writeCalls_cons_execute (m a : String) (l : List GCall) :
    writeCalls (GCall.cexecute m a :: l) = writeCalls l := rfl

theorem writeCalls_cons_workflow (m s : String) (i : Nat) (l : List GCall) :
    writeCalls (GCall.cworkflow m s i :: l) = writeCalls l := rfl

theorem writeCalls_cons_write (i : Nat) (q : ℚ) (l : List GCall) :
    writeCalls (GCall.cwrite i q :: l) = GCall.cwrite i q :: writeCalls l := rfl

theorem workflowCalls_nil : workflowCalls [] = [] := rfl

theorem workflowCalls_cons_create (m : String) (d : PyDict) (l : List GCall) :
    workflowCalls (GCall.ccreate m d :: l) = workflowCalls l := rfl

theorem workflowCalls_cons_browse (m : String) (i : Nat) (l : List GCall) :
    workflowCalls (GCall.cbrowse m i :: l) = workflowCalls l := rfl

theorem workflowCalls_cons_execute (m a : String) (l : List GCall) :
    workflowCalls (GCall.cexecute m a :: l) = workflowCalls l := rfl

theorem writeCalls_map_create {α : Type} (m : String) (f : α → PyDict) (l : List α) :
    writeCalls (l.map fun d => GCall.ccreate m (f d)) = [] := by
  induction l with
  | nil => rfl
  | cons d rest ih => simp [writeCalls, List.filter, ih]

theorem workflowCalls_map_create {α : Type} (m : String) (f : α → PyDict) (l : List α) :
    workflowCalls (l.map fun d => GCall.ccreate m (f d)) = [] := by
  induction l with
  | nil => rfl
  | cons d rest ih => simp [workflowCalls, List.filter, ih]

theorem writeCalls_map_create_comp {α : Type} (m : String) (f : α → PyDict) (l : List α) :
    writeCalls (l.map ((fun d => GCall.ccreate m d) ∘ f)) = [] := by
  induction l with
  | nil => rfl
  | cons d rest ih => simp [writeCalls, List.filter, ih]

theorem workflowCalls_map_create_comp {α : Type} (m : String) (f : α → PyDict) (l : List α) :
    workflowCalls (l.map ((fun d => GCall.ccreate m d) ∘ f)) = [] := by
  induction l with
  | nil => rfl
  | cons d rest ih => simp [workflowCalls, List.filter, ih]

theorem writeCalls_attachStep (g : Gateway) (i : Nat) (att : Option PyDict) :
    writeCalls (attachStep g i att).2 = [] := by
  cases att with
  | none => rfl
  | some ad =>
    rw [attachStep]
    by_cases h : ad.isEmpty
    · simp [h, writeCalls_nil]
    · simp only [h, Bool.false_eq_true, if_false, reduceIte]
      split <;> rfl

theorem workflowCalls_attachStep (g : Gateway) (i : Nat) (att : Option PyDict) :
    workflowCalls (attachStep g i att).2 = [] := by
  cases att with
  | none => rfl
  | some ad =>
    rw [attachStep]
    by_cases h : ad.isEmpty
    · simp [h, workflowCalls_nil]
    · simp only [h, Bool.false_eq_true, if_false, reduceIte]
      split <;> rfl

/-- Claim C1 (code bug): the always-applied correction fails on both sides
of the tolerance. At the spec's own routine scenario — one computed tax
line of amount 100.5 against an expected 100, difference at most 0.80 —
the source calls the undefined `logging.important` (client.py line 395) and
raises `AttributeError` before the assignment, so the amount is never
overwritten and no `write_record` call is issued; above the tolerance
(expected 102) the line is corrected and persisted with exactly one
`write_record` call, but `logging.log('tax_line updated')` (client.py line
401) then raises `TypeError`, so `create_invoice` never returns the
invoice id. -/
theorem C1_important_crash_blocks_correction :
    ((create_invoice g1 invD [lineD] none "draft" (some (mkRat 100 1))).result
        = Except.error (PyErr.attributeError "important")
      ∧ writeCalls (create_invoice g1 invD [lineD] none "draft"
          (some (mkRat 100 1))).calls = [])
    ∧ ((create_invoice g1 invD [lineD] none "draft" (some (mkRat 102 1))).result
        = Except.error PyErr.typeError
      ∧ writeCalls (create_invoice g1 invD [lineD] none "draft"
          (some (mkRat 102 1))).calls = [GCall.cwrite 5 (mkRat 102 1)]) := by
  have htl : (g1.browseInvoice 11).taxLine = [⟨5, 9, mkRat 201 2⟩] := rfl
  have hle : ¬(|(⟨5, 9, mkRat 201 2⟩ : TaxLine).amount - mkRat 100 1| > 4/5) := by
    rw [show (⟨5, 9, mkRat 201 2⟩ : TaxLine).amount - mkRat 100 1 = 1/2 by
      norm_num [Rat.mkRat_eq_div]]
    norm_num [abs_le]
  have hgt : |(⟨5, 9, mkRat 201 2⟩ : TaxLine).amount - mkRat 102 1| > 4/5 := by
    rw [show (⟨5, 9, mkRat 201 2⟩ : TaxLine).amount - mkRat 102 1 = -(3/2) by
      norm_num [Rat.mkRat_eq_div]]
    rw [abs_neg, abs_of_nonneg (by norm_num)]
    norm_num
  have hfix1 : fixSingleLine ⟨5, 9, mkRat 201 2⟩ (mkRat 100 1)
      = (Except.error (PyErr.attributeError "important"), [], []) := by
    rw [fixSingleLine, if_pos (by decide), if_neg hle]
  have hfix2 : fixSingleLine ⟨5, 9, mkRat 201 2⟩ (mkRat 102 1)
      = (Except.error PyErr.typeError, [GCall.cwrite 5 (mkRat 102 1)],
         [LogEv.warnFix 5]) := by
    rw [fixSingleLine, if_pos (by decide), if_pos hgt]
    rfl
  have hrec1 : reconcile g1 11 ([lineD].map fun d => aset d "invoice_id" (PyVal.vnat 11))
      "draft" (some (mkRat 100 1))
      = (Except.error (PyErr.attributeError "important"),
         [GCall.cbrowse "account.invoice" 11], []) := by
    rw [reconcile]
    simp only [show (mkRat 100 1 : ℚ) ≠ 0 by decide, reduceIte, htl, hfix1]
    rfl
  have hrec2 : reconcile g1 11 ([lineD].map fun d => aset d "invoice_id" (PyVal.vnat 11))
      "draft" (some (mkRat 102 1))
      = (Except.error PyErr.typeError,
         [GCall.cbrowse "account.invoice" 11, GCall.cwrite 5 (mkRat 102 1)],
         [LogEv.warnFix 5]) := by
    rw [reconcile]
    simp only [show (mkRat 102 1 : ℚ) ≠ 0 by decide, reduceIte, htl, hfix2]
    rfl
  constructor
  · rw [create_invoice]
    simp only [show invD.isEmpty = false from rfl, show ([lineD] : List PyDict).isEmpty = false
      from rfl, Bool.false_eq_true, if_false, show g1.create "account.invoice" invD = 11
      from rfl, show g1.resetTaxes 11 = true from rfl, reduceIte, hrec1]
    refine ⟨by trivial, ?_⟩
    simp [writeCalls_append, writeCalls_cons_create, writeCalls_cons_browse,
      writeCalls_cons_execute, writeCalls_nil, writeCalls_map_create,
      writeCalls_map_create_comp]
  · rw [create_invoice]
    simp only [show invD.isEmpty = false from rfl, show ([lineD] : List PyDict).isEmpty = false
      from rfl, Bool.false_eq_true, if_false, show g1.create "account.invoice" invD = 11
      from rfl, show g1.resetTaxes 11 = true from rfl, reduceIte, hrec2]
    refine ⟨by trivial, ?_⟩
    simp [writeCalls_append, writeCalls_cons_create, writeCalls_cons_browse,
      writeCalls_cons_execute, writeCalls_cons_write, writeCalls_nil, writeCalls_map_create,
      writeCalls_map_create_comp]

/-- Claim C3: during multi-tax-line reconciliation in which every line spec
supplied `vat_amount` and a single-tax `invoice_line_tax_id` (so the
expected-amount map was built), if some computed tax line's tax-code id is
absent from that map, no correction is applied to any tax line — the run
contains no write_record call — and `create_invoice` still returns the
invoice id rather than raising. -/
theorem C3_unknown_tax_code_aborts_correction (g : Gateway) (inv : PyDict)
    (lines : List PyDict) (state : String) (t : ℚ) (iid : Nat)
    (tl1 tl2 : TaxLine) (rest : List TaxLine) (m : List (Nat × PyVal)) (ctr : List GCall)
    (h1 : inv ≠ []) (h2 : lines ≠ []) (h3 : state = "draft" ∨ state = "open")
    (ht : t ≠ 0)
    (hiid : g.create "account.invoice" inv = iid)
    (hreset : g.resetTaxes iid = true)
    (htl : (g.browseInvoice iid).taxLine = tl1 :: tl2 :: rest)
    (hcollect : collectVatData g (lines.map fun d => aset d "invoice_id" (PyVal.vnat iid)) []
        = (Except.ok (some m), ctr))
    (hunknown : unknownTaxCode m (g.browseInvoice iid).taxLine = true) :
    (create_invoice g inv lines none state (some t)).result = Except.ok iid
    ∧ writeCalls (create_invoice g inv lines none state (some t)).calls = [] := by
  have hinv : inv.isEmpty = false := by
    cases inv with
    | nil => exact absurd rfl h1
    | cons a as => rfl
  have hlines : lines.isEmpty = false := by
    cases lines with
    | nil => exact absurd rfl h2
    | cons a as => rfl
  have hstate : ¬(state ≠ "draft" ∧ state ≠ "open") := by
    rcases h3 with rfl | rfl <;> simp
  rw [htl] at hunknown
  have hrec : reconcile g iid (lines.map fun d => aset d "invoice_id" (PyVal.vnat iid))
      state (some t)
      = (Except.ok state, [GCall.cbrowse "account.invoice" iid] ++ ctr, []) := by
    rw [reconcile]
    simp only [ht, reduceIte, htl, hcollect, hunknown, if_true]
  have hctr : writeCalls ctr = [] := by
    have := writeCalls_collectVatData g
      (lines.map fun d => aset d "invoice_id" (PyVal.vnat iid)) []
    rw [hcollect] at this
    exact this
  have hwf : writeCalls (if state = "open"
      then [GCall.cworkflow "account.invoice" "invoice_open" iid] else []) = [] := by
    split <;> rfl
  rw [create_invoice, hinv, hlines]
  simp only [Bool.false_eq_true, if_false, hstate, hiid, hreset, reduceIte, hrec]
  refine ⟨rfl, ?_⟩
  simp [writeCalls_append, writeCalls_cons_create, writeCalls_cons_browse,
    writeCalls_cons_execute, writeCalls_map_create, writeCalls_map_create_comp,
    writeCalls_nil, hctr, hwf, attachStep]

theorem C3_witness :
    (create_invoice g4 invD [lineVat] none "open" (some (mkRat 9 1))).result = Except.ok 3
    ∧ writeCalls (create_invoice g4 invD [lineVat] none "open" (some (mkRat 9 1))).calls
        = [] :=
  C3_unknown_tax_code_aborts_correction g4 invD [lineVat] "open" (mkRat 9 1) 3
    ⟨1, 10, mkRat 2 1⟩ ⟨2, 99, mkRat 7 1⟩ [] [(10, PyVal.vnum (mkRat 2 1))]
    [GCall.cbrowse "account.tax" 7]
    (by decide) (by decide) (Or.inr rfl) (by decide) rfl rfl rfl rfl (by decide)

theorem alookup_aset_ne {κ β : Type} [DecidableEq κ] (l : List (κ × β)) (k k' : κ) (v : β)
    (h : k ≠ k') : alookup (aset l k v) k' = alookup l k' := by
  induction l with
  | nil => simp [aset, alookup, h]
  | cons p rest ih =>
    obtain ⟨a, b⟩ := p
    by_cases ha : a = k
    · subst ha
      simp [aset, alookup, h]
    · simp [aset, alookup, ha, ih]

theorem wfVatLine_aset_invoice_id (d : PyDict) (x : PyVal) :
    wfVatLine (aset d "invoice_id" x) ↔ wfVatLine d := by
  unfold wfVatLine
  rw [alookup_aset_ne d "invoice_id" "vat_amount" x (by decide),
      alookup_aset_ne d "invoice_id" "invoice_line_tax_id" x (by decide)]

theorem badVatLine_aset_invoice_id (d : PyDict) (x : PyVal) :
    badVatLine (aset d "invoice_id" x) ↔ badVatLine d := by
  unfold badVatLine
  rw [alookup_aset_ne d "invoice_id" "vat_amount" x (by decide),
      alookup_aset_ne d "invoice_id" "invoice_line_tax_id" x (by decide)]

theorem collectVatData_skips (g : Gateway) :
    ∀ (ds : List PyDict) (acc : List (Nat × PyVal)),
      (∀ d ∈ ds, wfVatLine d) → (∃ d ∈ ds, badVatLine d) →
      (collectVatData g ds acc).1 = Except.ok none := by
  intro ds
  induction ds with
  | nil =>
    intro acc _ hbad
    simp at hbad
  | cons d rest ih =>
    intro acc hwf hbad
    rw [collectVatData]
    cases hv : alookup d "vat_amount" with
    | none => rfl
    | some vamt =>
      have hsome : (alookup d "vat_amount").isSome := by rw [hv]; rfl
      obtain ⟨l, hl⟩ := hwf d (by simp) hsome
      rw [hl]
      rcases l with _ | ⟨⟨a, b, t3⟩, l1⟩
      · rfl
      · rcases l1 with _ | ⟨y, l2⟩
        · rcases t3 with _ | ⟨tid, t4⟩
          · rfl
          · rcases t4 with _ | ⟨z, t5⟩
            · cases hb : g.browseTax tid with
              | none => simp only [hb]
              | some tax =>
                have hbadrest : ∃ d0 ∈ rest, badVatLine d0 := by
                  rcases hbad with ⟨d0, hd0mem, hd0bad⟩
                  rcases List.mem_cons.mp hd0mem with rfl | hmem
                  · exfalso
                    rcases hd0bad with hnone | ⟨l2, hl2, hall⟩
                    · rw [hv] at hnone; exact Option.noConfusion hnone
                    · rw [hl] at hl2
                      have : l2 = [(a, b, [tid])] := by
                        have := Option.some.inj hl2
                        exact (PyVal.vtax.inj this).symm
                      exact hall a b tid this
                  · exact ⟨d0, hmem, hd0bad⟩
                have hwfrest : ∀ d0 ∈ rest, wfVatLine d0 := by
                  intro d0 hd0
                  exact hwf d0 (List.mem_cons_of_mem d hd0)
                have hrec := ih (aset acc tax.taxCodeId vamt) hwfrest hbadrest
                simp only [hb]
                simpa using hrec
            · rfl
        · rcases t3 with _ | ⟨tid, _ | ⟨z, t5⟩⟩ <;> rfl

/-- Claim C4 fails as stated: for lines `[{vat_amount: 5}, {name: ...}]` the
second line lacks `vat_amount`, satisfying the claim's antecedent, yet
`create_invoice` raises a `KeyError` on the first line's missing
`invoice_line_tax_id` key instead of skipping reconciliation and returning
the invoice id. -/
theorem C4_cex_keyerror :
    (create_invoice g4 invD [lineVatNoTax, lineD] none "open" (some (mkRat 10 1))).result
      = Except.error (PyErr.keyError "invoice_line_tax_id") := rfl

/-- Claim C4 (amended): with more than one computed tax line, provided every
line spec carrying `vat_amount` also carries an `invoice_line_tax_id`
command list, if some line lacks `vat_amount` or its `invoice_line_tax_id`
does not reference exactly one tax, then reconciliation is skipped for the
whole invoice (no write_record call), a requested `open` state is forced
back to draft so the `invoice_open` workflow transition is never triggered,
and `create_invoice` still returns the invoice id. (A line with
`vat_amount` but without the `invoice_line_tax_id` key instead raises
`KeyError`, per the counterexample.) -/
theorem C4_amended_skip_forces_draft (g : Gateway) (inv : PyDict) (lines : List PyDict)
    (state : String) (t : ℚ) (iid : Nat) (tl1 tl2 : TaxLine) (rest : List TaxLine)
    (h1 : inv ≠ []) (h2 : lines ≠ []) (h3 : state = "draft" ∨ state = "open")
    (ht : t ≠ 0)
    (hiid : g.create "account.invoice" inv = iid)
    (hreset : g.resetTaxes iid = true)
    (htl : (g.browseInvoice iid).taxLine = tl1 :: tl2 :: rest)
    (hwf : ∀ d ∈ lines, wfVatLine d)
    (hbad : ∃ d ∈ lines, badVatLine d) :
    (create_invoice g inv lines none state (some t)).result = Except.ok iid
    ∧ writeCalls (create_invoice g inv lines none state (some t)).calls = []
    ∧ workflowCalls (create_invoice g inv lines none state (some t)).calls = [] := by
  have hinv : inv.isEmpty = false := by
    cases inv with
    | nil => exact absurd rfl h1
    | cons a as => rfl
  have hlines : lines.isEmpty = false := by
    cases lines with
    | nil => exact absurd rfl h2
    | cons a as => rfl
  have hstate : ¬(state ≠ "draft" ∧ state ≠ "open") := by
    rcases h3 with rfl | rfl <;> simp
  have hwfm : ∀ d ∈ lines.map (fun d => aset d "invoice_id" (PyVal.vnat iid)), wfVatLine d := by
    intro d hd
    rcases List.mem_map.mp hd with ⟨d0, hd0, rfl⟩
    exact (wfVatLine_aset_invoice_id d0 (PyVal.vnat iid)).mpr (hwf d0 hd0)
  have hbadm : ∃ d ∈ lines.map (fun d => aset d "invoice_id" (PyVal.vnat iid)), badVatLine d := by
    rcases hbad with ⟨d0, hd0, hb⟩
    exact ⟨aset d0 "invoice_id" (PyVal.vnat iid), List.mem_map_of_mem _ hd0,
      (badVatLine_aset_invoice_id d0 (PyVal.vnat iid)).mpr hb⟩
  rcases hcv : collectVatData g (lines.map fun d => aset d "invoice_id" (PyVal.vnat iid)) []
      with ⟨res, tr⟩
  have hres : res = Except.ok none := by
    have h := collectVatData_skips g (lines.map fun d => aset d "invoice_id" (PyVal.vnat iid))
      [] hwfm hbadm
    rw [hcv] at h
    exact h
  subst hres
  have htr : writeCalls tr = [] := by
    have h := writeCalls_collectVatData g
      (lines.map fun d => aset d "invoice_id" (PyVal.vnat iid)) []
    rw [hcv] at h
    exact h
  have htrw : workflowCalls tr = [] := by
    have h := workflowCalls_collectVatData g
      (lines.map fun d => aset d "invoice_id" (PyVal.vnat iid)) []
    rw [hcv] at h
    exact h
  rcases h3 with rfl | rfl
  · have hrec : reconcile g iid (lines.map fun d => aset d "invoice_id" (PyVal.vnat iid))
        "draft" (some t)
        = (Except.ok "draft", [GCall.cbrowse "account.invoice" iid] ++ tr,
           [LogEv.infoSkip]) := by
      rw [reconcile]
      simp only [ht, reduceIte, htl, hcv]
      simp
    rw [create_invoice, hinv, hlines]
    simp only [Bool.false_eq_true, if_false, hstate, hiid, hreset, reduceIte, hrec]
    refine ⟨rfl, ?_, ?_⟩
    · simp [writeCalls_append, writeCalls_cons_create, writeCalls_cons_browse,
        writeCalls_cons_execute, writeCalls_map_create, writeCalls_map_create_comp,
        writeCalls_nil, htr, attachStep]
    · simp [workflowCalls_append, workflowCalls_cons_create, workflowCalls_cons_browse,
        workflowCalls_cons_execute, workflowCalls_map_create, workflowCalls_map_create_comp,
        workflowCalls_nil, htrw, attachStep]
  · have hrec : reconcile g iid (lines.map fun d => aset d "invoice_id" (PyVal.vnat iid))
        "open" (some t)
        = (Except.ok "draft", [GCall.cbrowse "account.invoice" iid] ++ tr,
           [LogEv.infoSkip, LogEv.warnForceDraft]) := by
      rw [reconcile]
      simp only [ht, reduceIte, htl, hcv]
      simp
    rw [create_invoice, hinv, hlines]
    simp only [Bool.false_eq_true, if_false, hstate, hiid, hreset, reduceIte, hrec]
    refine ⟨rfl, ?_, ?_⟩
    · simp [writeCalls_append, writeCalls_cons_create, writeCalls_cons_browse,
        writeCalls_cons_execute, writeCalls_map_create, writeCalls_map_create_comp,
        writeCalls_nil, htr, attachStep]
    · simp [workflowCalls_append, workflowCalls_cons_create, workflowCalls_cons_browse,
        workflowCalls_cons_execute, workflowCalls_map_create, workflowCalls_map_create_comp,
        workflowCalls_nil, htrw, attachStep]

theorem C4_witness :
    (create_invoice g4 invD [lineD] none "open" (some (mkRat 10 1))).result = Except.ok 3
    ∧ writeCalls (create_invoice g4 invD [lineD] none "open" (some (mkRat 10 1))).calls = []
    ∧ workflowCalls (create_invoice g4 invD [lineD] none "open"
        (some (mkRat 10 1))).calls = [] :=
  C4_amended_skip_forces_draft g4 invD [lineD] "open" (mkRat 10 1) 3
    ⟨1, 10, mkRat 2 1⟩ ⟨2, 99, mkRat 7 1⟩ []
    (by decide) (by decide) (Or.inr rfl) (by decide) rfl rfl rfl
    (by
      intro d hd
      simp only [List.mem_singleton] at hd
      subst hd
      intro hsome
      exact absurd hsome (by decide))
    ⟨lineD, by simp, Or.inl rfl⟩

/-- Claim C8: a resolver lookup whose remote search returns more than one
matching id raises the ambiguity error, never picks one of the matches, and
performs no further remote call after that search: for `fetch_tax`,
`fetch_account` and `fetch_partner` the whole trace is exactly the
ambiguous search, and for `fetch_product` (run with the tax reference
already cached) the whole trace is exactly the ambiguous product search; in
particular no candidate is browsed. -/
theorem C8_ambiguous_is_fatal (g : Gateway) (st : ClientState)
    (taxIdx code pname prodIdx : String) (q : ℚ) (customer supplier : Bool)
    (trec : TaxRec)
    (i1 i2 : Nat) (ir : List Nat) (j1 j2 : Nat) (jr : List Nat)
    (k1 k2 : Nat) (kr : List Nat) (l1 l2 : Nat) (lr : List Nat)
    (htmiss : alookup st.taxes_cache taxIdx = none)
    (htdef : taxIdx ≠ "default")
    (htq : parseFloat taxIdx = some q) (htq0 : q ≠ 0)
    (hts : g.search "account.tax" [Crit.eqs "description" ("ACH-" ++ taxIdx)]
        = i1 :: i2 :: ir)
    (has : g.search "account.account" [Crit.eqs "code" code] = j1 :: j2 :: jr)
    (hps : g.search "res.partner" (partnerExactArgs pname customer supplier)
        = k1 :: k2 :: kr)
    (hpmiss : alookup st.products_cache prodIdx = none)
    (hptax : alookup st.taxes_cache prodIdx = some (some trec))
    (hds : g.search "product.product"
        [Crit.ilike "name_template" (productDescription (some trec))] = l1 :: l2 :: lr) :
    ((fetch_tax g st taxIdx).res
        = Except.error (PyErr.ambiguous ("More than one tax with description " ++ taxIdx))
      ∧ (fetch_tax g st taxIdx).calls
        = [GCall.csearch "account.tax" [Crit.eqs "description" ("ACH-" ++ taxIdx)]])
    ∧ fetch_account g code
        = (Except.error (PyErr.ambiguous ("Found multiple accounts with code" ++ code)),
           [GCall.csearch "account.account" [Crit.eqs "code" code]])
    ∧ fetch_partner g pname customer supplier
        = (Except.error (PyErr.ambiguous ("Found multiple customers with name " ++ pname)),
           [GCall.csearch "res.partner" (partnerExactArgs pname customer supplier)])
    ∧ ((fetch_product g st prodIdx).res
        = Except.error (PyErr.ambiguous
            ("More than one product " ++ productDescription (some trec)))
      ∧ (fetch_product g st prodIdx).calls
        = [GCall.csearch "product.product"
            [Crit.ilike "name_template" (productDescription (some trec))]]) := by
  refine ⟨?_, ?_, ?_, ?_⟩
  · rw [fetch_tax, htmiss, if_neg htdef, htq]
    simp only [htq0, reduceIte, hts]
    exact ⟨by trivial, by trivial⟩
  · rw [fetch_account, has]
  · rw [fetch_partner]
    simp only [hps, List.isEmpty_cons, Bool.false_eq_true, if_false, reduceIte]
  · have htax : fetch_tax g st prodIdx = ⟨Except.ok (some trec), st, []⟩ := by
      rw [fetch_tax, hptax]
    rw [fetch_product, hpmiss, htax]
    simp only [hds]
    exact ⟨by trivial, by trivial⟩

theorem C8_witness :
    ((fetch_tax g8 st8 "19.6").res
        = Except.error (PyErr.ambiguous ("More than one tax with description " ++ "19.6"))
      ∧ (fetch_tax g8 st8 "19.6").calls
        = [GCall.csearch "account.tax" [Crit.eqs "description" ("ACH-" ++ "19.6")]])
    ∧ fetch_account g8 "411000"
        = (Except.error (PyErr.ambiguous ("Found multiple accounts with code" ++ "411000")),
           [GCall.csearch "account.account" [Crit.eqs "code" "411000"]])
    ∧ fetch_partner g8 "Bob" true false
        = (Except.error (PyErr.ambiguous ("Found multiple customers with name " ++ "Bob")),
           [GCall.csearch "res.partner" (partnerExactArgs "Bob" true false)])
    ∧ ((fetch_product g8 st8 "x").res
        = Except.error (PyErr.ambiguous
            ("More than one product " ++ productDescription (some ⟨4, mkRat 1 10, 44⟩)))
      ∧ (fetch_product g8 st8 "x").calls
        = [GCall.csearch "product.product"
            [Crit.ilike "name_template" (productDescription (some ⟨4, mkRat 1 10, 44⟩))]]) :=
  C8_ambiguous_is_fatal g8 st8 "19.6" "411000" "Bob" "x" (mkRat 98 5) true false
    ⟨4, mkRat 1 10, 44⟩ 1 2 [] 1 2 [] 1 2 [] 1 2 []
    rfl (by decide) (by decide) (by decide) rfl rfl rfl rfl rfl rfl

theorem replaceDot_append (l1 l2 : List Char) :
    replaceDot (l1 ++ l2) = replaceDot l1 ++ replaceDot l2 := by
  induction l1 with
  | nil => rfl
  | cons c cs ih => simp [replaceDot, ih]

theorem digitChar_ne_dot : ∀ m : Fin 10, Char.ofNat (48 + m.val) ≠ '.' := by decide

theorem replaceDot_natDigits (n : Nat) : replaceDot (natDigits n) = natDigits n := by
  induction n using Nat.strong_induction_on with
  | _ n ih =>
    rw [natDigits]
    by_cases h : n < 10
    · rw [dif_pos h]
      simp [replaceDot, digitChar_ne_dot ⟨n, h⟩]
    · rw [dif_neg h]
      have hdiv : n / 10 < n :=
        Nat.div_lt_self (Nat.lt_of_lt_of_le (by norm_num) (Nat.le_of_not_lt h)) (by norm_num)
      have h10 : n % 10 < 10 := Nat.mod_lt _ (by norm_num)
      rw [replaceDot_append, ih (n / 10) hdiv]
      simp [replaceDot, digitChar_ne_dot ⟨n % 10, h10⟩]

theorem rheRound_nonneg (x : ℚ) (hx : 0 ≤ x) : 0 ≤ rheRound x := by
  unfold rheRound
  have hf : 0 ≤ ⌊x⌋ := Int.floor_nonneg.mpr hx
  simp only []
  split_ifs <;> omega

theorem replaceDot_toList_services :
    replaceDot "Produits et Services ".toList = "Produits et Services ".toList := by decide

theorem productDescription_eq_amended (t : TaxRec) (hnn : 0 ≤ t.amount) :
    productDescription (some t) = amendedDescription (some t) := by
  have hx : 0 ≤ t.amount * 100 := mul_nonneg hnn (by norm_num)
  have hnum : 0 ≤ (t.amount * 100).num := Rat.num_nonneg.mpr hx
  simp only [productDescription, productText, amendedDescription]
  by_cases hden : (t.amount * 100).den = 1
  · simp only [hden, if_true, reduceIte, pyFmtD2]
    have hneg : ¬((t.amount * 100).num < 0) := not_lt.mpr hnum
    simp only [hneg, if_false, reduceIte]
    apply congrArg String.mk
    rw [replaceDot_append, replaceDot_toList_services]
    by_cases hlen : (natDigits (t.amount * 100).num.natAbs).length < 2
    · simp [hlen, replaceDot, replaceDot_natDigits]
    · simp [hlen, replaceDot_natDigits]
  · simp only [hden, if_false, reduceIte, pyFmt21]
    have hm : 0 ≤ rheRound (10 * (t.amount * 100)) :=
      rheRound_nonneg _ (by positivity)
    have hneg : ¬(rheRound (10 * (t.amount * 100)) < 0) := not_lt.mpr hm
    simp only [hneg, if_false, reduceIte]
    apply congrArg String.mk
    rw [replaceDot_append, replaceDot_toList_services, replaceDot_append,
        replaceDot_natDigits]
    simp [replaceDot, replaceDot_natDigits]

/-- Claim C9 fails as stated: for a cached 5% tax, the whole percentage is
rendered through Python's width-2 `'%2d'` format, which left-pads the
single digit with a space — the built description is
`"Produits et Services  5"` (two spaces), not the claim's
`"Produits et Services 5"` — and `fetch_product` issues its `ilike`
`name_template` search with the padded text. -/
theorem C9_cex_width2_padding :
    productDescription (some ⟨4, mkRat 1 20, 7⟩) = "Produits et Services  5"
    ∧ claimDescription (some ⟨4, mkRat 1 20, 7⟩) = "Produits et Services 5"
    ∧ productDescription (some ⟨4, mkRat 1 20, 7⟩)
        ≠ claimDescription (some ⟨4, mkRat 1 20, 7⟩)
    ∧ (fetch_product gw0 st9 "5").calls.head?
        = some (GCall.csearch "product.product"
            [Crit.ilike "name_template" "Produits et Services  5"]) := by
  have hx : (⟨4, mkRat 1 20, 7⟩ : TaxRec).amount * 100 = mkRat 5 1 := by
    norm_num [Rat.mkRat_eq_div]
  have hdesc : productDescription (some ⟨4, mkRat 1 20, 7⟩) = "Produits et Services  5" := by
    simp only [productDescription, productText, hx]
    unfold pyFmtD2 natDigits
    decide
  have hclaim : claimDescription (some ⟨4, mkRat 1 20, 7⟩) = "Produits et Services 5" := by
    simp only [claimDescription, hx]
    unfold natDigits
    decide
  refine ⟨hdesc, hclaim, ?_, ?_⟩
  · rw [hdesc, hclaim]
    decide
  · have htax : fetch_tax gw0 st9 "5" = ⟨Except.ok (some ⟨4, mkRat 1 20, 7⟩), st9, []⟩ := by
      rw [fetch_tax]
      rfl
    rw [fetch_product]
    simp only [htax, hdesc]
    rfl

/-- Claim C9 (amended): for a resolvable `vat_index` with a nonnegative
cached tax amount, `fetch_product` builds the description
`'Produits et Services <p>'` with `p` the amount times 100 rendered through
a width-2 space-padded integer format when whole (so single-digit whole
percentages carry a leading space) and with one decimal place — decimal
point replaced by a comma — otherwise (`'Produits et Services 0'` when no
tax applies), and issues a case-insensitive partial (`ilike`) search on
`name_template` with exactly that description. -/
theorem C9_amended_description_format (g : Gateway) (st : ClientState) (idx : String)
    (trec : TaxRec)
    (hpmiss : alookup st.products_cache idx = none)
    (hptax : alookup st.taxes_cache idx = some (some trec))
    (hnn : 0 ≤ trec.amount) :
    productDescription (some trec) = amendedDescription (some trec)
    ∧ productDescription none = amendedDescription none
    ∧ (fetch_product g st idx).calls.head?
        = some (GCall.csearch "product.product"
            [Crit.ilike "name_template" (amendedDescription (some trec))]) := by
  have heq := productDescription_eq_amended trec hnn
  refine ⟨heq, by decide, ?_⟩
  have htax : fetch_tax g st idx = ⟨Except.ok (some trec), st, []⟩ := by
    rw [fetch_tax, hptax]
  rw [fetch_product, hpmiss]
  simp only [htax, heq]
  rcases hres : g.search "product.product"
      [Crit.ilike "name_template" (amendedDescription (some trec))]
      with _ | ⟨a, _ | ⟨b, rest⟩⟩ <;> simp [hres]

theorem C9_witness :
    productDescription (some ⟨4, mkRat 49 250, 7⟩)
        = amendedDescription (some ⟨4, mkRat 49 250, 7⟩)
    ∧ productDescription none = amendedDescription none
    ∧ (fetch_product gw0 ⟨[("19.6", some ⟨4, mkRat 49 250, 7⟩)], []⟩ "19.6").calls.head?
        = some (GCall.csearch "product.product"
            [Crit.ilike "name_template" (amendedDescription (some ⟨4, mkRat 49 250, 7⟩))]) :=
  C9_amended_description_format gw0 ⟨[("19.6", some ⟨4, mkRat 49 250, 7⟩)], []⟩ "19.6"
    ⟨4, mkRat 49 250, 7⟩ rfl rfl (by decide)
